import Mathlib

/-!
Shallow embedding of the solar-prediction service (Python, FastAPI) used to
check the natural-language specification against the code.

Conventions of the embedding:
* Python floats are modelled as rationals (`ℚ`); library transcendental
  functions (`math.sin`, `math.cos`, `np.sqrt`) are passed in as abstract
  function parameters, since only their call structure matters here.
* `datetime` objects are modelled by `PyDatetime`, a record of the component
  accessors the code actually reads (`hour`, `month`, ...) plus an abstract
  identity stamp.
* Fallible Python code is modelled with `Option`/`Except`; a raised exception
  is an `Except.error` carrying a `PyError` describing the Python exception.
* External effects (HTTP fetches, artifact downloads, `joblib.load`,
  `datetime.fromisoformat`, `float(...)` parsing) are abstracted as function
  parameters so that each code path of the service itself stays concrete.
-/

set_option autoImplicit false

/-- Python exceptions relevant to the embedded code paths. -/
inductive PyError where
  /-- The `TypeError: cannot unpack non-iterable NoneType` raised when a caller
  tuple-unpacks a function result that is `None`. -/
  | typeErrorUnpackNone : PyError
  /-- Pydantic `ValidationError` for a missing or ill-typed required field;
  carries the field name. -/
  | validationError (field : String) : PyError
  /-- The `UnsupportedFeatureError` raised by the data-preparation service;
  carries the list of unsupported feature names. -/
  | unsupportedFeature (features : List String) : PyError
  /-- Python `ValueError` with a message. -/
  | valueError (msg : String) : PyError
  /-- An `AttributeError` from reading an attribute of `None`. -/
  | attributeError : PyError
deriving DecidableEq, Repr

/-- Model of a Python `datetime`: the component accessors read by the code,
plus an abstract `stamp` giving the value its identity (epoch minutes). -/
structure PyDatetime where
  stamp : Int
  hour : Int
  month : Int
  day : Int
  day_of_year : Int
  week_of_year : Int
  day_of_week : Int
deriving DecidableEq, Repr, Inhabited

/-- Pydantic model `PowerPlant` (`model_manager_models.py`): all of
`longitude`, `latitude`, `capacity` are `Optional[float]`. -/
structure PowerPlant where
  id : Int
  longitude : Option ℚ := none
  latitude : Option ℚ := none
  capacity : Option ℚ := none
deriving DecidableEq, Repr

/-- Pydantic model `WeatherDataPoint` (`weather_forecast_models.py`): a
timestamp and one nullable numeric channel per field. `is_day` is typed
`Optional[int]` in the source; it is represented as a rational here like the
other channels. -/
structure WeatherDataPoint where
  time : PyDatetime
  temperature_2m : Option ℚ := none
  relative_humidity_2m : Option ℚ := none
  cloud_cover : Option ℚ := none
  wind_speed_10m : Option ℚ := none
  wind_direction_10m : Option ℚ := none
  shortwave_radiation : Option ℚ := none
  diffuse_radiation : Option ℚ := none
  direct_normal_irradiance : Option ℚ := none
  cloud_cover_low : Option ℚ := none
  cloud_cover_mid : Option ℚ := none
  et0_fao_evapotranspiration : Option ℚ := none
  vapour_pressure_deficit : Option ℚ := none
  is_day : Option ℚ := none
  sunshine_duration : Option ℚ := none
  shortwave_radiation_instant : Option ℚ := none
  diffuse_radiation_instant : Option ℚ := none
  direct_radiation_instant : Option ℚ := none
deriving DecidableEq, Repr, Inhabited

/-- Pydantic model `WeatherForecast` (`weather_forecast_models.py`). -/
structure WeatherForecast where
  power_plant_id : Int
  latitude : ℚ
  longitude : ℚ
  timezone : String
  elevation : ℚ
  forecast_data : List WeatherDataPoint
  fetch_time : PyDatetime
deriving DecidableEq, Repr

/-- Pydantic model `OpenMeteoResponse`. The provider's `minutely_15` dict is
modelled by the `time` string array together with a partial map from channel
name to the channel's parallel array (`none` models an absent key). -/
structure OpenMeteoResponse where
  latitude : ℚ
  longitude : ℚ
  generationtime_ms : ℚ
  utc_offset_seconds : Int
  timezone : String
  timezone_abbreviation : String
  elevation : ℚ
  minutely_15_time : List String
  minutely_15 : String → Option (List ℚ)

/-- Embeds `WeatherForecastService._get_value_at_index`: returns `None` when the
array is absent or the index is out of range, else the element. The source
guards the subscript with `index >= len(data_array)`, so the access itself
can never raise. -/
def get_value_at_index (data_array : Option (List ℚ)) (index : Nat) : Option ℚ :=
  match data_array with
  | none => none
  | some l => if l.length ≤ index then none else l.get? index

/-- Construction of one `WeatherDataPoint` inside
`WeatherForecastService._get_weather_point_list`: every fetched channel is
read through `_get_value_at_index`; `direct_radiation_instant` is never passed
and keeps its `None` default. -/
def build_weather_data_point (ch : String → Option (List ℚ)) (t : PyDatetime)
    (i : Nat) : WeatherDataPoint :=
  { time := t
    temperature_2m := get_value_at_index (ch "temperature_2m") i
    relative_humidity_2m := get_value_at_index (ch "relative_humidity_2m") i
    cloud_cover := get_value_at_index (ch "cloud_cover") i
    wind_speed_10m := get_value_at_index (ch "wind_speed_10m") i
    wind_direction_10m := get_value_at_index (ch "wind_direction_10m") i
    shortwave_radiation := get_value_at_index (ch "shortwave_radiation") i
    diffuse_radiation := get_value_at_index (ch "diffuse_radiation") i
    direct_normal_irradiance := get_value_at_index (ch "direct_normal_irradiance") i
    cloud_cover_low := get_value_at_index (ch "cloud_cover_low") i
    cloud_cover_mid := get_value_at_index (ch "cloud_cover_mid") i
    et0_fao_evapotranspiration := get_value_at_index (ch "et0_fao_evapotranspiration") i
    vapour_pressure_deficit := get_value_at_index (ch "vapour_pressure_deficit") i
    is_day := get_value_at_index (ch "is_day") i
    sunshine_duration := get_value_at_index (ch "sunshine_duration") i
    shortwave_radiation_instant := get_value_at_index (ch "shortwave_radiation_instant") i
    diffuse_radiation_instant := get_value_at_index (ch "diffuse_radiation_instant") i
    direct_radiation_instant := none }

/-- The per-index loop of `_get_weather_point_list` before the final
drop-first step: a point is appended for every timestamp string that
`datetime.fromisoformat` accepts (`parse_time`), and any per-point exception
skips just that index. -/
def build_weather_points (parse_time : String → Option PyDatetime)
    (ch : String → Option (List ℚ)) (times : List String) : List WeatherDataPoint :=
  times.enum.filterMap fun p =>
    (parse_time p.2).map fun t => build_weather_data_point ch t p.1

/-- Embeds `WeatherForecastService._get_weather_point_list`: build one point per
parseable timestamp, then drop the first point (when any) to avoid
`horizon=0` predictions. -/
def get_weather_point_list (parse_time : String → Option PyDatetime)
    (resp : OpenMeteoResponse) : List WeatherDataPoint :=
  let pts := build_weather_points parse_time resp.minutely_15 resp.minutely_15_time
  if 0 < pts.length then pts.drop 1 else pts

/-- Embeds `WeatherForecastService._to_weather_forecast`. -/
def to_weather_forecast (parse_time : String → Option PyDatetime) (plant_id : Int)
    (fetch_time : PyDatetime) (resp : OpenMeteoResponse) : WeatherForecast :=
  { power_plant_id := plant_id
    latitude := resp.latitude
    longitude := resp.longitude
    timezone := resp.timezone
    elevation := resp.elevation
    forecast_data := get_weather_point_list parse_time resp
    fetch_time := fetch_time }

/-- Python truthiness test used by `OpenMeteoConnector.fetch_weather_forecast`
(`not power_plant.latitude`): `None` and `0.0` are both falsy. -/
def py_falsy (x : Option ℚ) : Bool :=
  match x with
  | none => true
  | some q => q = 0

/-- Embeds `OpenMeteoConnector.fetch_weather_forecast`. The HTTP round trip is
abstracted by `net` (`none` models a `RequestException` or any other error,
which the connector's `except` blocks turn into a `return None`). The
function is annotated `Tuple[datetime, Optional[OpenMeteoResponse]]` in the
source but actually returns either the pair or the bare `None` modelled by
`Option`. -/
def fetch_weather_forecast (net : PowerPlant → Option OpenMeteoResponse)
    (fetch_time : PyDatetime) (power_plant : PowerPlant) :
    Option (PyDatetime × OpenMeteoResponse) :=
  if py_falsy power_plant.latitude || py_falsy power_plant.longitude then none
  else
    match net power_plant with
    | some resp => some (fetch_time, resp)
    | none => none

/-- Embeds `WeatherForecastService.get_weather_forecast`: tuple-unpacks the
connector result; when the connector returned `None` this raises
`TypeError: cannot unpack non-iterable NoneType`. -/
def get_weather_forecast (net : PowerPlant → Option OpenMeteoResponse)
    (parse_time : String → Option PyDatetime) (fetch_time : PyDatetime)
    (power_plant : PowerPlant) : Except PyError WeatherForecast :=
  match fetch_weather_forecast net fetch_time power_plant with
  | none => .error .typeErrorUnpackNone
  | some (created_at, resp) =>
      .ok (to_weather_forecast parse_time power_plant.id created_at resp)

/-- Embeds `WeatherForecastService.get_weather_forecast_for_all_power_plants`: a
plain `for` loop with no `try`, so an exception for one plant propagates and
the partially built list is lost. -/
def get_weather_forecast_for_all_power_plants
    (net : PowerPlant → Option OpenMeteoResponse)
    (parse_time : String → Option PyDatetime) (fetch_time : PyDatetime) :
    List PowerPlant → Except PyError (List WeatherForecast)
  | [] => .ok []
  | p :: rest => do
      let wf ← get_weather_forecast net parse_time fetch_time p
      let rest' ← get_weather_forecast_for_all_power_plants net parse_time fetch_time rest
      .ok (wf :: rest')

/-- A value produced by a feature calculator before `float(...)` conversion:
either a number or the raw `datetime` object (returned by the `datetime`
calculator). -/
inductive PyValue where
  | num (q : ℚ) : PyValue
  | dt (d : PyDatetime) : PyValue
deriving DecidableEq, Repr

/-- Python `float(value)`: succeeds on numbers, raises `TypeError` on a
`datetime` object (modelled by `none`). -/
def py_float : PyValue → Option ℚ
  | .num q => some q
  | .dt _ => none

/-- The `context` dict built by `DataPreparationService._prepare_context`.
`power_plant_capacity` is the `capacity` value handed in by the caller, which
is `Optional` on `PowerPlant`. -/
structure PlantContext where
  power_plant_capacity : Option ℚ
  latitude : ℚ
  longitude : ℚ
  elevation : ℚ
  power_plant_id : Int
deriving DecidableEq, Repr

/-- Embeds `DataPreparationService._prepare_context`. -/
def prepare_context (wf : WeatherForecast) (power_plant_capacity : Option ℚ) :
    PlantContext :=
  { power_plant_capacity := power_plant_capacity
    latitude := wf.latitude
    longitude := wf.longitude
    elevation := wf.elevation
    power_plant_id := wf.power_plant_id }

/-- A registered feature calculator: `(data_point, context) -> value or None`. -/
def FeatureCalc : Type :=
  WeatherDataPoint → PlantContext → Option PyValue

/-- The dispatch dict `DataPreparationService._feature_calculators` as an
association list in registration order, populated by
`_register_weather_features`, `_register_time_features` and
`_register_plant_features` (`_register_derived_features` registers nothing).
`sinQ`/`cosQ` abstract `math.sin`/`math.cos`, which the source applies to the
raw hour and month values. -/
def feature_calculators_dict (sinQ cosQ : ℚ → ℚ) : List (String × FeatureCalc) :=
  [("temperature_2m", fun dp _ => dp.temperature_2m.map .num),
   ("relative_humidity_2m", fun dp _ => dp.relative_humidity_2m.map .num),
   ("cloud_cover", fun dp _ => dp.cloud_cover.map .num),
   ("cloud_cover_low", fun dp _ => dp.cloud_cover_low.map .num),
   ("cloud_cover_mid", fun dp _ => dp.cloud_cover_mid.map .num),
   ("wind_speed_10m", fun dp _ => dp.wind_speed_10m.map .num),
   ("wind_direction_10m", fun dp _ => dp.wind_direction_10m.map .num),
   ("shortwave_radiation", fun dp _ => dp.shortwave_radiation.map .num),
   ("shortwave_radiation_instant", fun dp _ => dp.shortwave_radiation_instant.map .num),
   ("diffuse_radiation", fun dp _ => dp.diffuse_radiation.map .num),
   ("diffuse_radiation_instant", fun dp _ => dp.diffuse_radiation_instant.map .num),
   ("direct_normal_irradiance", fun dp _ => dp.direct_normal_irradiance.map .num),
   ("et0_fao_evapotranspiration", fun dp _ => dp.et0_fao_evapotranspiration.map .num),
   ("vapour_pressure_deficit", fun dp _ => dp.vapour_pressure_deficit.map .num),
   ("is_day", fun dp _ => dp.is_day.map .num),
   ("sunshine_duration", fun dp _ => dp.sunshine_duration.map .num),
   ("direct_radiation_instant", fun dp _ => dp.direct_radiation_instant.map .num),
   ("datetime", fun dp _ => some (.dt dp.time)),
   ("hour", fun dp _ => some (.num dp.time.hour)),
   ("month", fun dp _ => some (.num dp.time.month)),
   ("day", fun dp _ => some (.num dp.time.day)),
   ("day_of_year", fun dp _ => some (.num dp.time.day_of_year)),
   ("week_of_year", fun dp _ => some (.num dp.time.week_of_year)),
   ("day_of_week", fun dp _ => some (.num dp.time.day_of_week)),
   ("hour_sin", fun dp _ => some (.num (sinQ dp.time.hour))),
   ("hour_cos", fun dp _ => some (.num (cosQ dp.time.hour))),
   ("month_sin", fun dp _ => some (.num (sinQ dp.time.month))),
   ("month_cos", fun dp _ => some (.num (cosQ dp.time.month))),
   ("capacity", fun _ ctx => ctx.power_plant_capacity.map .num),
   ("latitude", fun _ ctx => some (.num ctx.latitude)),
   ("longitude", fun _ ctx => some (.num ctx.longitude)),
   ("elevation", fun _ ctx => some (.num ctx.elevation))]

/-- Dict access `self._feature_calculators[feature_name]` (as `Option`). -/
def feature_calculators (sinQ cosQ : ℚ → ℚ) (name : String) : Option FeatureCalc :=
  (feature_calculators_dict sinQ cosQ).lookup name

/-- The key set of the calculator dict, in registration order: the union of
the weather channels, the time-derived fields and the plant-context fields. -/
def supported_features : List String :=
  ["temperature_2m", "relative_humidity_2m", "cloud_cover", "cloud_cover_low",
   "cloud_cover_mid", "wind_speed_10m", "wind_direction_10m",
   "shortwave_radiation", "shortwave_radiation_instant", "diffuse_radiation",
   "diffuse_radiation_instant", "direct_normal_irradiance",
   "et0_fao_evapotranspiration", "vapour_pressure_deficit", "is_day",
   "sunshine_duration", "direct_radiation_instant",
   "datetime", "hour", "month", "day", "day_of_year", "week_of_year",
   "day_of_week", "hour_sin", "hour_cos", "month_sin", "month_cos",
   "capacity", "latitude", "longitude", "elevation"]

/-- One cell of `DataPreparationService._calculate_features_for_data_point`:
a missing dict key would raise `KeyError` (caught, `0.0`), a `None` value is
substituted by `0.0`, a `float(...)` failure is caught and substituted by
`0.0`. -/
def calculate_feature_cell (sinQ cosQ : ℚ → ℚ) (dp : WeatherDataPoint)
    (ctx : PlantContext) (name : String) : ℚ :=
  match feature_calculators sinQ cosQ name with
  | none => 0
  | some c =>
      match c dp ctx with
      | none => 0
      | some v =>
          match py_float v with
          | some q => q
          | none => 0

/-- Embeds `DataPreparationService._calculate_features_for_data_point`: one cell per
requested feature name, in the requested order. -/
def calculate_features_for_data_point (sinQ cosQ : ℚ → ℚ)
    (dp : WeatherDataPoint) (model_features : List String) (ctx : PlantContext) :
    List ℚ :=
  model_features.map (calculate_feature_cell sinQ cosQ dp ctx)

/-- Embeds `DataPreparationService._validate_features`: collects the requested names
missing from the calculator dict and raises `UnsupportedFeatureError` when
any exist. -/
def validate_features (sinQ cosQ : ℚ → ℚ) (model_features : List String) :
    Except PyError Unit :=
  let unsupported :=
    model_features.filter fun f => (feature_calculators sinQ cosQ f).isNone
  if unsupported.isEmpty then .ok () else .error (.unsupportedFeature unsupported)

/-- Embeds `DataPreparationService.prepare_data`: validate the feature set once,
then build one row per weather point. The outer `except` block only re-raises
after logging. -/
def prepare_data (sinQ cosQ : ℚ → ℚ) (wf : WeatherForecast)
    (model_features : List String) (power_plant_capacity : Option ℚ) :
    Except PyError (List (List ℚ)) := do
  let _ ← validate_features sinQ cosQ model_features
  let ctx := prepare_context wf power_plant_capacity
  pure (wf.forecast_data.map fun dp =>
    calculate_features_for_data_point sinQ cosQ dp model_features ctx)

/-- Pydantic model `PowerPrediction` (`prediction_models.py`):
`predicted_power` is `Optional[float]` with default `None`; all other fields
are required. -/
structure PowerPrediction where
  prediction_time : PyDatetime
  model_id : Int
  created_at : PyDatetime
  predicted_power : Option ℚ := none
  horizon : ℚ
deriving DecidableEq, Repr

/-- A Python keyword-argument value handed to a pydantic constructor. -/
inductive PyKw where
  | dtV (d : PyDatetime) : PyKw
  | intV (i : Int) : PyKw
  | ratV (q : ℚ) : PyKw
  | noneV : PyKw
deriving DecidableEq, Repr

/-- Required `datetime` field of a pydantic constructor call: missing or
ill-typed raises `ValidationError` naming the field. -/
def pydantic_req_dt (kwargs : List (String × PyKw)) (field : String) :
    Except PyError PyDatetime :=
  match kwargs.lookup field with
  | some (.dtV d) => .ok d
  | _ => .error (.validationError field)

/-- Required `int` field of a pydantic constructor call. -/
def pydantic_req_int (kwargs : List (String × PyKw)) (field : String) :
    Except PyError Int :=
  match kwargs.lookup field with
  | some (.intV i) => .ok i
  | _ => .error (.validationError field)

/-- Required `float` field of a pydantic constructor call (ints coerce). -/
def pydantic_req_rat (kwargs : List (String × PyKw)) (field : String) :
    Except PyError ℚ :=
  match kwargs.lookup field with
  | some (.ratV q) => .ok q
  | some (.intV i) => .ok (i : ℚ)
  | _ => .error (.validationError field)

/-- Optional `float` field with default `None` (ints coerce). -/
def pydantic_opt_rat (kwargs : List (String × PyKw)) (field : String) :
    Except PyError (Option ℚ) :=
  match kwargs.lookup field with
  | none => .ok none
  | some .noneV => .ok none
  | some (.ratV q) => .ok (some q)
  | some (.intV i) => .ok (some (i : ℚ))
  | some _ => .error (.validationError field)

/-- The pydantic constructor `PowerPrediction(**kwargs)`: validates each
declared field against the keyword arguments, ignoring extra keywords
(pydantic's default), and raises `ValidationError` when a required field is
absent. -/
def pydantic_power_prediction (kwargs : List (String × PyKw)) :
    Except PyError PowerPrediction := do
  let prediction_time ← pydantic_req_dt kwargs "prediction_time"
  let model_id ← pydantic_req_int kwargs "model_id"
  let created_at ← pydantic_req_dt kwargs "created_at"
  let predicted_power ← pydantic_opt_rat kwargs "predicted_power"
  let horizon ← pydantic_req_rat kwargs "horizon"
  pure { prediction_time := prediction_time, model_id := model_id,
         created_at := created_at, predicted_power := predicted_power,
         horizon := horizon }

/-- Pydantic model `ModelMetadata` (`state_models.py`). -/
structure ModelMetadata where
  id : Int
  features : List String
  plant_id : Int
  file_type : String
deriving DecidableEq, Repr

/-- An artifact download: `joblib.load` either raises (`decoded = none`) or
yields an estimator, abstracted by its `predict(matrix) -> vector` method. -/
structure ModelFile where
  decoded : Option (List (List ℚ) → List ℚ)

/-- A decoded `MLModel` (`state_models.py`): metadata plus the estimator's
`predict` method. `self.features` mirrors `metadata.features`. -/
structure MLModel where
  metadata : ModelMetadata
  predictFn : List (List ℚ) → List ℚ

/-- The attribute `MLModel.features` as set by `MLModel.__init__`. -/
def MLModel.features (m : MLModel) : List String :=
  m.metadata.features

/-- Embeds `ModelFactory.create_model` (`app/prediction/state/model_factory.py`):
only `joblib` is supported; constructing `JoblibModel` runs `joblib.load`,
which may itself raise; any other file type raises `ValueError`. -/
def create_model (metadata : ModelMetadata) (file_content : ModelFile) :
    Except PyError MLModel :=
  if metadata.file_type = "joblib" then
    match file_content.decoded with
    | some p => .ok { metadata := metadata, predictFn := p }
    | none => .error (.valueError "joblib load failed")
  else .error (.valueError "Unsupported file type")

/-- Appending a model under its plant id, as done by the dict update in
`StateManager._refresh_model_state`. -/
def append_model (models : Int → List MLModel) (plant_id : Int) (m : MLModel) :
    Int → List MLModel :=
  fun p => if p = plant_id then models p ++ [m] else models p

/-- The `for model_metadata in models_metadata` loop of
`StateManager._refresh_model_state`. A failed download (`None`) skips the
entry with `continue`; an exception raised by `ModelFactory.create_model` is
caught by the `try` wrapped around the whole loop, returning the map built so
far. -/
def refresh_model_state_loop (download : Int → Option ModelFile)
    (models : Int → List MLModel) : List ModelMetadata → (Int → List MLModel)
  | [] => models
  | meta :: rest =>
      match download meta.id with
      | none => refresh_model_state_loop download models rest
      | some file_content =>
          match create_model meta file_content with
          | .error _ => models
          | .ok m =>
              refresh_model_state_loop download
                (append_model models meta.plant_id m) rest

/-- Embeds `StateManager._refresh_model_state`: the map is cleared first; a `None`
metadata list returns the cleared map; otherwise the loop runs. -/
def refresh_model_state (download : Int → Option ModelFile)
    (models_metadata : Option (List ModelMetadata)) : Int → List MLModel :=
  match models_metadata with
  | none => fun _ => []
  | some metas => refresh_model_state_loop download (fun _ => []) metas

/-- The body of the `for i, data_point in enumerate(...)` loop of
`PredictionService._map_to_power_predictions`: one `PowerPrediction(...)`
construction per forecast point with an in-range index, with the exact
keyword arguments the source passes. A raised `ValidationError` propagates
out of the loop. -/
def map_to_power_predictions_loop (model_id : Int) (plant_id : Int)
    (fetch_time : PyDatetime) (predictions : List ℚ) :
    Nat → List WeatherDataPoint → Except PyError (List PowerPrediction)
  | _, [] => .ok []
  | i, data_point :: rest =>
      match predictions.get? i with
      | none =>
          map_to_power_predictions_loop model_id plant_id fetch_time predictions
            (i + 1) rest
      | some q => do
          let row ← pydantic_power_prediction
            [("prediction_time", .dtV data_point.time),
             ("model_id", .intV model_id),
             ("plant_id", .intV plant_id),
             ("created_at", .dtV fetch_time),
             ("predicted_power_mw", .ratV q)]
          let rest' ← map_to_power_predictions_loop model_id plant_id fetch_time
            predictions (i + 1) rest
          pure (row :: rest')

/-- Embeds `PredictionService._map_to_power_predictions`. -/
def map_to_power_predictions (predictions : List ℚ) (wf : WeatherForecast)
    (model : MLModel) : Except PyError (List PowerPrediction) :=
  map_to_power_predictions_loop model.metadata.id wf.power_plant_id
    wf.fetch_time predictions 0 wf.forecast_data

/-- Embeds `PredictionService._create_predictions_for_model`: look up the plant
(`.capacity` on a `None` plant raises `AttributeError`), prepare the feature
matrix, run inference, map the output and hand the rows to the repository.
Returns the batch passed to `save_power_predictions_batch`. -/
def create_predictions_for_model (sinQ cosQ : ℚ → ℚ)
    (plants : Int → Option PowerPlant) (wf : WeatherForecast) (model : MLModel) :
    Except PyError (List PowerPrediction) := do
  let plant ←
    match plants wf.power_plant_id with
    | some p => Except.ok p
    | none => Except.error PyError.attributeError
  let model_inputs ← prepare_data sinQ cosQ wf model.features plant.capacity
  let predictions := model.predictFn model_inputs
  map_to_power_predictions predictions wf model

/-- Embeds `PredictionService._create_predictions_for_weather_forecast`: every
active model of the plant is attempted; a per-model exception is caught and
logged, contributing no rows. The result is the concatenation of all batches
handed to the repository for this forecast. -/
def create_predictions_for_weather_forecast (sinQ cosQ : ℚ → ℚ)
    (plants : Int → Option PowerPlant) (models_for : Int → List MLModel)
    (wf : WeatherForecast) : List PowerPrediction :=
  ((models_for wf.power_plant_id).map fun model =>
    match create_predictions_for_model sinQ cosQ plants wf model with
    | .ok rows => rows
    | .error _ => []).flatten

/-- Pydantic model `PowerReading` (`power_readings_models.py`); timestamps
are modelled by their epoch value. -/
structure PowerReading where
  timestamp : Int
  power_w : ℚ
deriving DecidableEq, Repr

/-- One collected row error of
`PowerReadingsService._validate_and_parse_csv`; the source formats these as
strings, which this embedding keeps structured. -/
inductive CsvRowError where
  | wrongColumnCount (row : Nat) (got : Nat) : CsvRowError
  | invalidTimestamp (row : Nat) (value : String) : CsvRowError
  | duplicateTimestamp (row : Nat) (value : String) : CsvRowError
  | invalidPower (row : Nat) (value : String) : CsvRowError
deriving DecidableEq, Repr

/-- Pydantic model `CSVValidationResult`. -/
structure CSVValidationResult where
  is_valid : Bool
  errors : List CsvRowError
  readings : List PowerReading
deriving DecidableEq, Repr

/-- Pydantic model `CSVUploadResponse`. -/
structure CSVUploadResponse where
  success : Bool
  message : String
  validation_errors : Option (List CsvRowError) := none
deriving DecidableEq, Repr

/-- The row loop of `PowerReadingsService._validate_and_parse_csv`, starting
at row number `n` with the already-seen timestamp set `seen`. `parse_ts`
abstracts `datetime.fromisoformat` (after the `Z` replacement) and
`parse_pow` abstracts `float(...)`. Note the source adds a timestamp to
`seen` before attempting to parse the power column. -/
def validate_csv_rows (parse_ts : String → Option Int)
    (parse_pow : String → Option ℚ) :
    Nat → List Int → List (List String) → List CsvRowError × List PowerReading
  | _, _, [] => ([], [])
  | n, seen, row :: rest =>
      if row.length ≠ 2 then
        let r := validate_csv_rows parse_ts parse_pow (n + 1) seen rest
        (.wrongColumnCount n row.length :: r.1, r.2)
      else
        let timestamp_str := row.getD 0 ""
        let power_str := row.getD 1 ""
        match parse_ts timestamp_str with
        | none =>
            let r := validate_csv_rows parse_ts parse_pow (n + 1) seen rest
            (.invalidTimestamp n timestamp_str :: r.1, r.2)
        | some timestamp =>
            if timestamp ∈ seen then
              let r := validate_csv_rows parse_ts parse_pow (n + 1) seen rest
              (.duplicateTimestamp n timestamp_str :: r.1, r.2)
            else
              match parse_pow power_str with
              | none =>
                  let r :=
                    validate_csv_rows parse_ts parse_pow (n + 1) (timestamp :: seen) rest
                  (.invalidPower n power_str :: r.1, r.2)
              | some power_w =>
                  let r :=
                    validate_csv_rows parse_ts parse_pow (n + 1) (timestamp :: seen) rest
                  (r.1, { timestamp := timestamp, power_w := power_w } :: r.2)

/-- Embeds `PowerReadingsService._validate_and_parse_csv` on an already decoded and
CSV-split file body: `is_valid` is `len(errors) == 0`. -/
def validate_and_parse_csv (parse_ts : String → Option Int)
    (parse_pow : String → Option ℚ) (rows : List (List String)) :
    CSVValidationResult :=
  let r := validate_csv_rows parse_ts parse_pow 1 [] rows
  { is_valid := r.1.isEmpty, errors := r.1, readings := r.2 }

/-- Embeds `PowerReadingsService.upload_csv_readings`: on a failed validation the
repository is never called and the response reports the collected errors; on
success the parsed readings are handed to `save_power_readings_batch` (the
first component of the result is the persisted batch). Metric-recalculation
failures are swallowed and do not change the response. -/
def upload_csv_readings (parse_ts : String → Option Int)
    (parse_pow : String → Option ℚ) (rows : List (List String)) :
    List PowerReading × CSVUploadResponse :=
  let vr := validate_and_parse_csv parse_ts parse_pow rows
  if vr.is_valid then
    (vr.readings, { success := true, message := "upload ok" })
  else
    ([], { success := false, message := "CSV validation failed",
           validation_errors := some vr.errors })

/-- Elementwise `errors = predicted_array - actual_array` of
`MetricsService._calculate_metric` (the operand lengths are equal on every
path that reaches it). -/
def metric_errors (predicted actual : List ℚ) : List ℚ :=
  List.zipWith (fun p a => p - a) predicted actual

/-- Embeds `np.mean` over a list of rationals. -/
def list_mean (l : List ℚ) : ℚ :=
  l.sum / (l.length : ℚ)

/-- Embeds `MetricsService._calculate_metric`: raises `ValueError` on empty or
unequal-length inputs and on an unknown metric type; otherwise computes the
requested statistic of the elementwise errors. `sqrtQ` abstracts `np.sqrt`. -/
def calculate_metric (sqrtQ : ℚ → ℚ) (metric_type : String)
    (predicted actual : List ℚ) : Except PyError ℚ :=
  if predicted.isEmpty || actual.isEmpty || predicted.length ≠ actual.length then
    .error (.valueError "Predicted and actual values must have the same non-zero length")
  else if metric_type = "MAE" then
    .ok (list_mean ((metric_errors predicted actual).map fun e => |e|))
  else if metric_type = "RMSE" then
    .ok (sqrtQ (list_mean ((metric_errors predicted actual).map fun e => e * e)))
  else if metric_type = "MBE" then
    .ok (list_mean (metric_errors predicted actual))
  else .error (.valueError "Unsupported metric type")

/-- A Python namespace (the attribute dict of a module object such as
`__main__`): a partial map from attribute name to value. -/
def PyNamespace (V : Type) : Type :=
  String → Option V

/-- Embeds `setattr` on a namespace. -/
def ns_set {V : Type} (ns : PyNamespace V) (name : String) (v : V) :
    PyNamespace V :=
  fun q => if q = name then some v else ns q

/-- Embeds `delattr` on a namespace. -/
def ns_del {V : Type} (ns : PyNamespace V) (name : String) : PyNamespace V :=
  fun q => if q = name then none else ns q

/-- The backup-and-publish loop of `ZipModel._load`: for each public symbol
of the companion module (the `dir(...)` names not starting with `_`, with
their values), back up any existing `__main__` attribute of the same name and
then overwrite it with the module's value. Returns the backup dict and the
mutated `__main__`. -/
def zip_backup_and_publish {V : Type} (main : PyNamespace V) :
    List (String × V) → List (String × V) × PyNamespace V
  | [] => ([], main)
  | (name, v) :: rest =>
      let backup_entry :=
        match main name with
        | some old => [(name, old)]
        | none => []
      let r := zip_backup_and_publish (ns_set main name v) rest
      (backup_entry ++ r.1, r.2)

/-- The `finally` loop of `ZipModel._load`: for each public symbol of the
companion module, restore the backed-up `__main__` value when one exists,
else delete the attribute when `__main__` currently has it. -/
def zip_restore_main {V : Type} (backup : List (String × V)) :
    PyNamespace V → List (String × V) → PyNamespace V
  | main, [] => main
  | main, (name, _) :: rest =>
      match backup.lookup name with
      | some old => zip_restore_main backup (ns_set main name old) rest
      | none =>
          if (main name).isSome then zip_restore_main backup (ns_del main name) rest
          else zip_restore_main backup main rest

/-- The result of `ZipModel._load`: the companion module kept alive in
`self._loaded_module` (and `sys.modules`), the delegate model deserialized
while the module's symbols were published, and the final state of
`__main__`. -/
structure ZipLoadResult (V D : Type) where
  loaded_module : List (String × V)
  delegate_model : D
  main_after : PyNamespace V

/-- Embeds `ZipModel._load` restricted to its `__main__` bookkeeping: publish the
companion module's public symbols, deserialize the delegate model (`deser`
observes the published namespace), then restore `__main__` in the `finally`
block. The companion module is retained in the result. -/
def zip_model_load {V D : Type} (main : PyNamespace V)
    (module_syms : List (String × V)) (deser : PyNamespace V → D) :
    ZipLoadResult V D :=
  let r := zip_backup_and_publish main module_syms
  let delegate := deser r.2
  let main_after := zip_restore_main r.1 r.2 module_syms
  { loaded_module := module_syms, delegate_model := delegate,
    main_after := main_after }

/-- A sample timestamp `s` minutes after the cycle start used in the concrete
evaluations below. -/
def sample_time (s : Int) : PyDatetime :=
  { stamp := s, hour := 0, month := 6, day := 1, day_of_year := 153,
    week_of_year := 22, day_of_week := 5 }

/-- A concrete stand-in for `datetime.fromisoformat` accepting the three
timestamps of `sample_response`. -/
def sample_parse_time (s : String) : Option PyDatetime :=
  if s = "2024-06-01T00:00" then some (sample_time 0)
  else if s = "2024-06-01T00:15" then some (sample_time 15)
  else if s = "2024-06-01T00:30" then some (sample_time 30)
  else none

/-- A concrete provider response with three forecast points and one present
channel. -/
def sample_response : OpenMeteoResponse :=
  { latitude := 45, longitude := 15, generationtime_ms := 1,
    utc_offset_seconds := 7200, timezone := "Europe/Zagreb",
    timezone_abbreviation := "CEST", elevation := 120,
    minutely_15_time :=
      ["2024-06-01T00:00", "2024-06-01T00:15", "2024-06-01T00:30"],
    minutely_15 := fun name =>
      if name = "temperature_2m" then some [20, 21, 22] else none }

/-- A plant with both coordinates and a capacity. -/
def sample_plant : PowerPlant :=
  { id := 1, longitude := some 15, latitude := some 45, capacity := some 1000 }

/-- A plant with no latitude (skipped per the spec). -/
def plant_without_latitude : PowerPlant :=
  { id := 2, longitude := some 16 }

/-- A network environment in which only `sample_plant` gets a response. -/
def sample_net (p : PowerPlant) : Option OpenMeteoResponse :=
  if p.id = 1 then some sample_response else none

/-- The forecast the service builds for `sample_plant` from
`sample_response` at cycle start. -/
def sample_forecast : WeatherForecast :=
  to_weather_forecast sample_parse_time 1 (sample_time 0) sample_response

/-- An estimator predicting a constant `1` for every input row. -/
def const_one_predict (rows : List (List ℚ)) : List ℚ :=
  rows.map fun _ => 1

/-- Metadata of an active joblib model for `sample_plant` requesting the
`capacity` feature. -/
def sample_metadata : ModelMetadata :=
  { id := 10, features := ["capacity"], plant_id := 1, file_type := "joblib" }

/-- The decoded model for `sample_metadata`. -/
def sample_model : MLModel :=
  { metadata := sample_metadata, predictFn := const_one_predict }

/-- State-manager plant map holding only `sample_plant`. -/
def sample_plants_map (i : Int) : Option PowerPlant :=
  if i = 1 then some sample_plant else none

/-- State-manager model map holding only `sample_model`. -/
def sample_models_for (i : Int) : List MLModel :=
  if i = 1 then [sample_model] else []

/-- Metadata whose file type the state model factory rejects. -/
def zip_metadata : ModelMetadata :=
  { id := 1, features := [], plant_id := 7, file_type := "zip" }

/-- Joblib metadata processed after `zip_metadata` in the refresh loop. -/
def joblib_metadata : ModelMetadata :=
  { id := 2, features := [], plant_id := 7, file_type := "joblib" }

/-- An artifact download that decodes fine. -/
def sample_model_file : ModelFile :=
  { decoded := some const_one_predict }

/-- A download environment in which every artifact downloads and decodes. -/
def sample_download (_ : Int) : Option ModelFile :=
  some sample_model_file

/-- A concrete stand-in for `datetime.fromisoformat` in the CSV ingest. -/
def sample_csv_parse_ts (s : String) : Option Int :=
  if s = "2024-06-01T12:00:00Z" then some 720
  else if s = "2024-06-01T12:15:00Z" then some 735
  else none

/-- A concrete stand-in for `float(...)` in the CSV ingest. -/
def sample_csv_parse_pow (s : String) : Option ℚ :=
  if s = "500" then some 500 else none

/-- Claim C1: the spec says each mapped row carries `predicted_power` and a
`horizon` equal to `(prediction_time - created_at)` in hours. The code never
computes a horizon: `_map_to_power_predictions` calls `PowerPrediction(...)`
with the keyword `predicted_power_mw` (not a declared field) and without the
required `horizon` field, so the pydantic constructor raises
`ValidationError` on the very first in-range forecast point and no row is
ever produced. Evaluated here on a one-prediction input over the sample
forecast (which has two points). -/
theorem c1_map_to_power_predictions_raises_missing_horizon :
    sample_forecast.forecast_data.length = 2 ∧
    map_to_power_predictions [5] sample_forecast sample_model =
      .error (.validationError "horizon") :=
  ⟨rfl, rfl⟩

/-- Claim C2: the first provider point is indeed dropped (3 points yield a
2-point forecast), but the pipeline run persists zero prediction rows, not
`K·(F−1) = 2`: the single active model's batch is lost because
`PowerPrediction` construction raises inside `_map_to_power_predictions` and
`_create_predictions_for_weather_forecast` catches the exception, skipping
the model. Evaluated on one plant, one model (feature `capacity`, constant
estimator) and a three-point provider response. -/
theorem c2_pipeline_run_persists_zero_rows :
    sample_response.minutely_15_time.length = 3 ∧
    (get_weather_point_list sample_parse_time sample_response).length = 2 ∧
    sample_models_for sample_forecast.power_plant_id = [sample_model] ∧
    create_predictions_for_weather_forecast id id sample_plants_map
      sample_models_for sample_forecast = [] :=
  ⟨rfl, rfl, rfl, rfl⟩

/-- Claim C3: a per-plant weather failure is supposed to skip only that
plant. In the code, `OpenMeteoConnector.fetch_weather_forecast` returns a
bare `None` for a plant without coordinates (or on a network error), the
caller tuple-unpacks it, and the resulting `TypeError` propagates out of the
un-guarded plant loop: the whole run aborts and even the healthy plant gets
no forecast. The second conjunct shows the healthy plant alone would have
succeeded. -/
theorem c3_per_plant_failure_aborts_run :
    get_weather_forecast_for_all_power_plants sample_net sample_parse_time
      (sample_time 0) [plant_without_latitude, sample_plant] =
      .error .typeErrorUnpackNone ∧
    get_weather_forecast sample_net sample_parse_time (sample_time 0)
      sample_plant = .ok sample_forecast :=
  ⟨rfl, rfl⟩

/-- Claim C4 counterexample: in `_refresh_model_state`, after the factory
raises on the first metadata entry (file type `zip`), the second entry is
never appended to the per-plant model map even though its download and
decode both succeed — the per-plant map stays empty. -/
theorem c4_factory_error_skips_remaining_models :
    refresh_model_state sample_download (some [zip_metadata, joblib_metadata]) 7
      = [] ∧
    sample_download joblib_metadata.id = some sample_model_file ∧
    create_model joblib_metadata sample_model_file =
      .ok { metadata := joblib_metadata, predictFn := const_one_predict } :=
  ⟨rfl, rfl, rfl⟩

/-- Claim C4 as amended: a failed download (`None` file) skips only that
entry and the loop continues with the rest; but an exception raised by
`ModelFactory.create_model` stops the loop, returning the map built so far
(models appended before the failure are kept, entries after it are never
processed); a successful entry is appended under its plant id and the loop
continues. -/
theorem c4_refresh_model_state_amended (download : Int → Option ModelFile)
    (models : Int → List MLModel) (meta : ModelMetadata)
    (rest : List ModelMetadata) :
    (download meta.id = none →
      refresh_model_state_loop download models (meta :: rest) =
        refresh_model_state_loop download models rest) ∧
    (∀ fc e, download meta.id = some fc → create_model meta fc = .error e →
      refresh_model_state_loop download models (meta :: rest) = models) ∧
    (∀ fc m, download meta.id = some fc → create_model meta fc = .ok m →
      refresh_model_state_loop download models (meta :: rest) =
        refresh_model_state_loop download (append_model models meta.plant_id m)
          rest) := by
  refine ⟨fun h => ?_, fun fc e h1 h2 => ?_, fun fc m h1 h2 => ?_⟩
  · simp only [refresh_model_state_loop, h]
  · simp only [refresh_model_state_loop, h1, h2]
  · simp only [refresh_model_state_loop, h1, h2]

/-- Witness for the amended C4 theorem at a concrete input: the zip entry
makes the factory raise, so the loop returns the empty map untouched. -/
theorem c4_refresh_model_state_amended_witness :
    refresh_model_state_loop sample_download (fun _ => [])
      [zip_metadata, joblib_metadata] = (fun _ => []) :=
  (c4_refresh_model_state_amended sample_download (fun _ => []) zip_metadata
    [joblib_metadata]).2.1 sample_model_file
    (.valueError "Unsupported file type") rfl rfl

/-- A sample `__main__` namespace for the zip-loader evaluation: `helper` is
shadowed by the companion module, `np` is untouched, `FancyEstimator` is
absent. -/
def sample_main_ns : PyNamespace Int :=
  fun q => if q = "np" then some 7 else if q = "helper" then some 5 else none

/-- Public symbols of a companion module defining `FancyEstimator` and
shadowing `helper`. -/
def sample_module_syms : List (String × Int) :=
  [("FancyEstimator", 1), ("helper", 2)]

/-- Key lookup in an association list succeeds exactly for the stored keys
(the dict-membership fact used by the feature-set results). -/
theorem lookup_isSome_iff_mem_keys {β : Type} (l : List (String × β)) (a : String) :
    (l.lookup a).isSome ↔ a ∈ l.map Prod.fst := by
  induction l with
  | nil => simp [List.lookup]
  | cons p rest ih =>
      rcases p with ⟨k, v⟩
      by_cases hk : k = a
      · subst hk
        simp [List.lookup]
      · have hba : (a == k) = false := beq_eq_false_iff_ne.mpr (Ne.symm hk)
        simp only [List.lookup, hba, List.map_cons, List.mem_cons]
        simp [ih, Ne.symm hk]

/-- The calculator dict has an entry exactly for the names in
`supported_features`. -/
theorem feature_calculators_isSome_iff (sinQ cosQ : ℚ → ℚ) (name : String) :
    (feature_calculators sinQ cosQ name).isSome ↔ name ∈ supported_features := by
  have hkeys : (feature_calculators_dict sinQ cosQ).map Prod.fst = supported_features := rfl
  rw [feature_calculators, lookup_isSome_iff_mem_keys, hkeys]

/-- Claim C5: `prepare_data` raises if and only if some requested feature
name lies outside the supported set (the key set of the calculator dict:
weather channels, time-derived fields and plant-context fields), and the
only possible error is the `UnsupportedFeatureError` listing the offending
names — raised by the validation pass before any row is built, so an
unsupported name never yields a partial matrix (an error result carries no
rows at all). -/
theorem c5_prepare_data_error_iff_unsupported (sinQ cosQ : ℚ → ℚ)
    (wf : WeatherForecast) (model_features : List String) (cap : Option ℚ) :
    ((∃ e, prepare_data sinQ cosQ wf model_features cap = .error e) ↔
      ∃ f ∈ model_features, f ∉ supported_features) ∧
    (∀ e, prepare_data sinQ cosQ wf model_features cap = .error e →
      e = .unsupportedFeature
        (model_features.filter fun f => (feature_calculators sinQ cosQ f).isNone)) := by
  by_cases hu :
      (model_features.filter fun f => (feature_calculators sinQ cosQ f).isNone).isEmpty
  · constructor
    · constructor
      · rintro ⟨e, he⟩
        simp [prepare_data, validate_features, hu, Except.bind] at he
      · rintro ⟨f, hf, hnot⟩
        exfalso
        rw [List.isEmpty_iff, List.filter_eq_nil_iff] at hu
        have := hu f hf
        rw [Option.isNone_iff_eq_none] at this
        have hsome : (feature_calculators sinQ cosQ f).isSome := by
          rcases hfc : feature_calculators sinQ cosQ f with _ | c
          · simp [hfc] at this
          · simp
        exact hnot ((feature_calculators_isSome_iff sinQ cosQ f).mp hsome)
    · intro e he
      simp [prepare_data, validate_features, hu, Except.bind] at he
  · constructor
    · constructor
      · intro _
        rw [List.isEmpty_iff] at hu
        rcases List.exists_mem_of_ne_nil _ hu with ⟨f, hf⟩
        rw [List.mem_filter] at hf
        refine ⟨f, hf.1, fun hmem => ?_⟩
        have := (feature_calculators_isSome_iff sinQ cosQ f).mpr hmem
        simp [Option.isNone_iff_eq_none] at hf
        simp [hf.2] at this
      · intro _
        refine ⟨.unsupportedFeature (model_features.filter fun f =>
          (feature_calculators sinQ cosQ f).isNone), ?_⟩
        simp [prepare_data, validate_features, hu, Except.bind]
    · intro e he
      simp [prepare_data, validate_features, hu, Except.bind] at he
      exact he.symm

/-- Witness for C5 at a concrete input: requesting `made_up_feature` makes
the preparation fail. -/
theorem c5_prepare_data_error_iff_unsupported_witness :
    ∃ e, prepare_data id id sample_forecast ["made_up_feature"] (some 1000) =
      Except.error e :=
  (c5_prepare_data_error_iff_unsupported id id sample_forecast
    ["made_up_feature"] (some 1000)).1.mpr
    ⟨"made_up_feature", by simp, by decide⟩

/-- Indexing into a mapped list with a fallback default, at an in-range
index. -/
theorem map_getD_of_lt {α β : Type} (f : α → β) :
    ∀ (l : List α) (i : Nat) (d : α) (d' : β), i < l.length →
      (l.map f).getD i d' = f (l.getD i d)
  | [], i, _, _, hi => absurd hi (by simp)
  | a :: as, 0, _, _, _ => rfl
  | a :: as, i + 1, d, d', hi =>
      map_getD_of_lt f as i d d' (by simpa using hi)

/-- Unfolding of one feature cell when the dict has a calculator for the
name. -/
theorem calculate_feature_cell_of_some (sinQ cosQ : ℚ → ℚ)
    (dp : WeatherDataPoint) (ctx : PlantContext) (name : String)
    (c : FeatureCalc) (hc : feature_calculators sinQ cosQ name = some c) :
    calculate_feature_cell sinQ cosQ dp ctx name =
      match c dp ctx with
      | none => 0
      | some v =>
          match py_float v with
          | some q => q
          | none => 0 := by
  unfold calculate_feature_cell
  rw [hc]

/-- Claim C6: for every forecast and every supported feature list the
prepared matrix has exactly one row per weather point and one column per
requested feature name in the requested order, and each cell follows the
substitution policy: a calculator returning `None` yields `0.0`, a
`float(...)` failure (e.g. on the raw `datetime` value) yields `0.0`, and a
resolved number is kept; no row is dropped. -/
theorem c6_matrix_shape_and_cell_policy (sinQ cosQ : ℚ → ℚ)
    (wf : WeatherForecast) (model_features : List String) (cap : Option ℚ)
    (h : ∀ f ∈ model_features, f ∈ supported_features) :
    ∃ M, prepare_data sinQ cosQ wf model_features cap = .ok M ∧
      M.length = wf.forecast_data.length ∧
      (∀ row ∈ M, row.length = model_features.length) ∧
      (∀ i j, i < wf.forecast_data.length → j < model_features.length →
        ∀ c, feature_calculators sinQ cosQ (model_features.getD j "") = some c →
          ((c (wf.forecast_data.getD i default) (prepare_context wf cap) = none →
              (M.getD i []).getD j 0 = 0) ∧
           (∀ v, c (wf.forecast_data.getD i default) (prepare_context wf cap) = some v →
              py_float v = none → (M.getD i []).getD j 0 = 0) ∧
           (∀ v q, c (wf.forecast_data.getD i default) (prepare_context wf cap) = some v →
              py_float v = some q → (M.getD i []).getD j 0 = q))) := by
  have hu : (model_features.filter fun f =>
      (feature_calculators sinQ cosQ f).isNone).isEmpty := by
    rw [List.isEmpty_iff, List.filter_eq_nil_iff]
    intro f hf
    have := (feature_calculators_isSome_iff sinQ cosQ f).mpr (h f hf)
    simp [Option.isNone_iff_eq_none]
    rcases hfc : feature_calculators sinQ cosQ f with _ | c
    · simp [hfc] at this
    · simp
  refine ⟨wf.forecast_data.map fun dp =>
    calculate_features_for_data_point sinQ cosQ dp model_features
      (prepare_context wf cap), ?_, ?_, ?_, ?_⟩
  · simp [prepare_data, validate_features, hu, Except.bind]
  · simp
  · intro row hrow
    rcases List.mem_map.mp hrow with ⟨dp, _, rfl⟩
    simp [calculate_features_for_data_point]
  · intro i j hi hj c hc
    have hrow : ((wf.forecast_data.map fun dp =>
        calculate_features_for_data_point sinQ cosQ dp model_features
          (prepare_context wf cap)).getD i []) =
        calculate_features_for_data_point sinQ cosQ
          (wf.forecast_data.getD i default) model_features
          (prepare_context wf cap) :=
      map_getD_of_lt _ wf.forecast_data i default [] hi
    have hcell : (calculate_features_for_data_point sinQ cosQ
        (wf.forecast_data.getD i default) model_features
        (prepare_context wf cap)).getD j 0 =
        calculate_feature_cell sinQ cosQ (wf.forecast_data.getD i default)
          (prepare_context wf cap) (model_features.getD j "") := by
      unfold calculate_features_for_data_point
      exact map_getD_of_lt _ model_features j "" 0 hj
    rw [hrow, hcell, calculate_feature_cell_of_some sinQ cosQ _ _ _ c hc]
    refine ⟨fun hnone => ?_, fun v hv hfl => ?_, fun v q hv hq => ?_⟩
    · rw [hnone]
    · rw [hv]
      show (match py_float v with | some q => (q : ℚ) | none => (0 : ℚ)) = (0 : ℚ)
      rw [hfl]
    · rw [hv]
      show (match py_float v with | some q2 => (q2 : ℚ) | none => (0 : ℚ)) = q
      rw [hq]

/-- Witness for C6 at a concrete input: a supported three-feature request
over the sample forecast. -/
theorem c6_matrix_shape_and_cell_policy_witness :
    ∃ M, prepare_data id id sample_forecast
      ["capacity", "temperature_2m", "datetime"] (some 1000) = .ok M ∧
      M.length = sample_forecast.forecast_data.length ∧
      (∀ row ∈ M, row.length = (["capacity", "temperature_2m", "datetime"] : List String).length) ∧
      (∀ i j, i < sample_forecast.forecast_data.length →
        j < (["capacity", "temperature_2m", "datetime"] : List String).length →
        ∀ c, feature_calculators id id
            ((["capacity", "temperature_2m", "datetime"] : List String).getD j "") = some c →
          ((c (sample_forecast.forecast_data.getD i default)
              (prepare_context sample_forecast (some 1000)) = none →
              (M.getD i []).getD j 0 = 0) ∧
           (∀ v, c (sample_forecast.forecast_data.getD i default)
              (prepare_context sample_forecast (some 1000)) = some v →
              py_float v = none → (M.getD i []).getD j 0 = 0) ∧
           (∀ v q, c (sample_forecast.forecast_data.getD i default)
              (prepare_context sample_forecast (some 1000)) = some v →
              py_float v = some q → (M.getD i []).getD j 0 = q))) :=
  c6_matrix_shape_and_cell_policy id id sample_forecast
    ["capacity", "temperature_2m", "datetime"] (some 1000) (by decide)

/-- A row with a wrong column count, an unparseable timestamp or an
unparseable power value always contributes a collected error. -/
theorem csv_error_of_bad_row (pts : String → Option Int) (pp : String → Option ℚ) :
    ∀ (rows : List (List String)) (n : Nat) (seen : List Int),
      (∃ r ∈ rows, r.length ≠ 2 ∨ pts (r.getD 0 "") = none ∨ pp (r.getD 1 "") = none) →
      (validate_csv_rows pts pp n seen rows).1 ≠ []
  | [], _, _, h => by simp at h
  | row :: rest, n, seen, h => by
      rcases h with ⟨r, hr, hbad⟩
      rcases List.mem_cons.mp hr with rfl | hmem
      · by_cases h2 : r.length ≠ 2
        · simp [validate_csv_rows, -List.getD_eq_getElem?_getD, h2]
        · rcases hbad with hb | hb | hb
          · exact absurd hb h2
          · simp [validate_csv_rows, -List.getD_eq_getElem?_getD, h2, hb]
          · rcases hts : pts (r.getD 0 "") with _ | t
            · simp [validate_csv_rows, -List.getD_eq_getElem?_getD, h2, hts]
            · by_cases hdup : t ∈ seen
              · simp [validate_csv_rows, -List.getD_eq_getElem?_getD, h2, hts, hdup]
              · simp [validate_csv_rows, -List.getD_eq_getElem?_getD, h2, hts, hdup, hb]
      · by_cases h2 : row.length ≠ 2
        · simp [validate_csv_rows, -List.getD_eq_getElem?_getD, h2]
        · rcases hts : pts (row.getD 0 "") with _ | t
          · simp [validate_csv_rows, -List.getD_eq_getElem?_getD, h2, hts]
          · by_cases hdup : t ∈ seen
            · simp [validate_csv_rows, -List.getD_eq_getElem?_getD, h2, hts, hdup]
            · rcases hpw : pp (row.getD 1 "") with _ | w
              · simp [validate_csv_rows, -List.getD_eq_getElem?_getD, h2, hts, hdup, hpw]
              · simp only [validate_csv_rows, if_neg h2, hts, hdup, if_neg, hpw]
                have := csv_error_of_bad_row pts pp rest (n + 1) (t :: seen)
                  ⟨r, hmem, hbad⟩
                simpa [hdup] using this

/-- A two-column row whose timestamp parses to a value already in the seen
set always ends in a non-empty error list. -/
theorem csv_error_of_seen_dup (pts : String → Option Int) (pp : String → Option ℚ) :
    ∀ (rows : List (List String)) (n : Nat) (seen : List Int) (t : Int),
      (∃ r ∈ rows, r.length = 2 ∧ pts (r.getD 0 "") = some t) → t ∈ seen →
      (validate_csv_rows pts pp n seen rows).1 ≠ []
  | [], _, _, _, h, _ => by simp at h
  | row :: rest, n, seen, t, h, hseen => by
      rcases h with ⟨r, hr, hlen, hts0⟩
      rcases List.mem_cons.mp hr with rfl | hmem
      · have h2 : ¬r.length ≠ 2 := by simp [hlen]
        simp [validate_csv_rows, -List.getD_eq_getElem?_getD, h2, hts0, hseen]
      · by_cases h2 : row.length ≠ 2
        · simp [validate_csv_rows, -List.getD_eq_getElem?_getD, h2]
        · rcases hts : pts (row.getD 0 "") with _ | t2
          · simp [validate_csv_rows, -List.getD_eq_getElem?_getD, h2, hts]
          · by_cases hdup : t2 ∈ seen
            · simp [validate_csv_rows, -List.getD_eq_getElem?_getD, h2, hts, hdup]
            · rcases hpw : pp (row.getD 1 "") with _ | w
              · simp [validate_csv_rows, -List.getD_eq_getElem?_getD, h2, hts, hdup, hpw]
              · simp only [validate_csv_rows, if_neg h2, hts, hdup, hpw]
                have := csv_error_of_seen_dup pts pp rest (n + 1) (t2 :: seen) t
                  ⟨r, hmem, hlen, hts0⟩ (List.mem_cons_of_mem _ hseen)
                simpa [hdup] using this

/-- Two two-column rows whose timestamps parse to the same value always end
in a non-empty error list (the first occurrence enters the seen set even if
its power column fails later). -/
theorem csv_error_of_duplicate_pair (pts : String → Option Int) (pp : String → Option ℚ) :
    ∀ (l1 : List (List String)) (n : Nat) (seen : List Int) (r : List String)
      (l2 : List (List String)) (r' : List String) (l3 : List (List String)) (t : Int),
      r.length = 2 → pts (r.getD 0 "") = some t →
      r'.length = 2 → pts (r'.getD 0 "") = some t →
      (validate_csv_rows pts pp n seen (l1 ++ r :: l2 ++ r' :: l3)).1 ≠ []
  | [], n, seen, r, l2, r', l3, t, hlen, hts0, hlen', hts0' => by
      have h2 : ¬r.length ≠ 2 := by simp [hlen]
      by_cases hdup : t ∈ seen
      · simp [validate_csv_rows, -List.getD_eq_getElem?_getD, h2, hts0, hdup]
      · rcases hpw : pp (r.getD 1 "") with _ | w
        · simp [validate_csv_rows, -List.getD_eq_getElem?_getD, h2, hts0, hdup, hpw]
        · simp only [validate_csv_rows, List.nil_append, if_neg h2, hts0, hpw]
          have := csv_error_of_seen_dup pts pp (l2 ++ r' :: l3) (n + 1) (t :: seen) t
            ⟨r', by simp, hlen', hts0'⟩ (List.mem_cons_self t seen)
          simpa [hdup] using this
  | row :: l1, n, seen, r, l2, r', l3, t, hlen, hts0, hlen', hts0' => by
      by_cases h2 : row.length ≠ 2
      · simp [validate_csv_rows, -List.getD_eq_getElem?_getD, h2]
      · rcases hts : pts (row.getD 0 "") with _ | t2
        · simp [validate_csv_rows, -List.getD_eq_getElem?_getD, h2, hts]
        · by_cases hdup : t2 ∈ seen
          · simp [validate_csv_rows, -List.getD_eq_getElem?_getD, h2, hts, hdup]
          · rcases hpw : pp (row.getD 1 "") with _ | w
            · simp [validate_csv_rows, -List.getD_eq_getElem?_getD, h2, hts, hdup, hpw]
            · simp only [validate_csv_rows, List.cons_append, if_neg h2, hts, hpw]
              have := csv_error_of_duplicate_pair pts pp l1 (n + 1) (t2 :: seen) r l2 r' l3 t
                hlen hts0 hlen' hts0'
              simpa [hdup] using this

/-- Claim C7: the readings upload is atomic with respect to validation.
Validation fails exactly when the collected error list is non-empty; in that
case the repository receives nothing (zero readings persisted) and the
response reports failure along with the collected errors; and each of the
four row-error kinds (wrong column count, unparseable timestamp, duplicate
timestamp within the file, non-numeric power) forces a non-empty error
list. -/
theorem c7_csv_upload_atomic (pts : String → Option Int) (pp : String → Option ℚ)
    (rows : List (List String)) :
    ((validate_and_parse_csv pts pp rows).is_valid = true ↔
      (validate_and_parse_csv pts pp rows).errors = []) ∧
    ((validate_and_parse_csv pts pp rows).errors ≠ [] →
      upload_csv_readings pts pp rows =
        ([], { success := false, message := "CSV validation failed",
               validation_errors := some (validate_and_parse_csv pts pp rows).errors })) ∧
    ((∃ r ∈ rows, r.length ≠ 2 ∨ pts (r.getD 0 "") = none ∨ pp (r.getD 1 "") = none) →
      (validate_and_parse_csv pts pp rows).errors ≠ []) ∧
    (∀ (l1 : List (List String)) (r : List String) (l2 : List (List String))
        (r' : List String) (l3 : List (List String)) (t : Int),
      rows = l1 ++ r :: l2 ++ r' :: l3 →
      r.length = 2 → pts (r.getD 0 "") = some t →
      r'.length = 2 → pts (r'.getD 0 "") = some t →
      (validate_and_parse_csv pts pp rows).errors ≠ []) := by
  refine ⟨?_, ?_, ?_, ?_⟩
  · simp [validate_and_parse_csv, List.isEmpty_iff]
  · intro hne
    have hval : (validate_and_parse_csv pts pp rows).is_valid = false := by
      simp [validate_and_parse_csv, List.isEmpty_iff] at hne ⊢
      exact hne
    simp [upload_csv_readings, hval]
  · intro hbad
    have := csv_error_of_bad_row pts pp rows 1 [] hbad
    simpa [validate_and_parse_csv] using this
  · intro l1 r l2 r' l3 t hrows hlen hts hlen' hts'
    subst hrows
    have := csv_error_of_duplicate_pair pts pp l1 1 [] r l2 r' l3 t hlen hts hlen' hts'
    simpa [validate_and_parse_csv] using this

/-- Witness for C7 at the concrete upload from the spec scenario: a good row
followed by a row with non-numeric power; nothing is persisted. -/
theorem c7_csv_upload_atomic_witness :
    upload_csv_readings sample_csv_parse_ts sample_csv_parse_pow
      [["2024-06-01T12:00:00Z", "500"], ["2024-06-01T12:15:00Z", "abc"]] =
      ([], { success := false, message := "CSV validation failed",
             validation_errors := some (validate_and_parse_csv sample_csv_parse_ts
               sample_csv_parse_pow
               [["2024-06-01T12:00:00Z", "500"], ["2024-06-01T12:15:00Z", "abc"]]).errors }) :=
  (c7_csv_upload_atomic sample_csv_parse_ts sample_csv_parse_pow
    [["2024-06-01T12:00:00Z", "500"], ["2024-06-01T12:15:00Z", "abc"]]).2.1
    ((c7_csv_upload_atomic sample_csv_parse_ts sample_csv_parse_pow
      [["2024-06-01T12:00:00Z", "500"], ["2024-06-01T12:15:00Z", "abc"]]).2.2.1
      ⟨["2024-06-01T12:15:00Z", "abc"], by simp, Or.inr (Or.inr (by decide))⟩)

/-- Claim C8: `_calculate_metric` raises exactly when a value list is empty,
the lengths differ, or the metric type is none of MAE, RMSE, MBE; otherwise,
with `errors = predicted - actual` elementwise, MAE is the mean absolute
error, RMSE applies `np.sqrt` to the mean squared error, and MBE is the mean
error. -/
theorem c8_calculate_metric_spec (sqrtQ : ℚ → ℚ) (metric_type : String) (predicted actual : List ℚ) :
    ((∃ e, calculate_metric sqrtQ metric_type predicted actual = .error e) ↔
      (predicted = [] ∨ actual = [] ∨ predicted.length ≠ actual.length ∨
        (metric_type ≠ "MAE" ∧ metric_type ≠ "RMSE" ∧ metric_type ≠ "MBE"))) ∧
    (predicted ≠ [] → actual ≠ [] → predicted.length = actual.length →
      calculate_metric sqrtQ "MAE" predicted actual =
        .ok (((metric_errors predicted actual).map fun e => |e|).sum /
          (predicted.length : ℚ)) ∧
      calculate_metric sqrtQ "RMSE" predicted actual =
        .ok (sqrtQ (((metric_errors predicted actual).map fun e => e * e).sum /
          (predicted.length : ℚ))) ∧
      calculate_metric sqrtQ "MBE" predicted actual =
        .ok ((metric_errors predicted actual).sum / (predicted.length : ℚ))) := by
  have herrlen : predicted.length = actual.length →
      (metric_errors predicted actual).length = predicted.length := by
    intro h
    simp [metric_errors, h]
  constructor
  · by_cases hp : predicted = []
    · simp [calculate_metric, hp]
    · by_cases ha : actual = []
      · simp [calculate_metric, hp, ha]
      · by_cases hl : predicted.length ≠ actual.length
        · simp [calculate_metric, hp, ha, hl]
        · simp only [calculate_metric, List.isEmpty_iff]
          rw [if_neg (by simp [hp, ha, hl])]
          by_cases hmae : metric_type = "MAE"
          · simp [hmae, hp, ha, hl]
          · by_cases hrmse : metric_type = "RMSE"
            · simp [hrmse, hp, ha, hl]
            · by_cases hmbe : metric_type = "MBE"
              · simp [hmbe, hp, ha, hl]
              · simp [hmae, hrmse, hmbe, hp, ha, hl]
  · intro hp ha hl
    have hcond : ¬(predicted.isEmpty || actual.isEmpty ||
        decide (predicted.length ≠ actual.length)) = true := by
      simp [List.isEmpty_iff, hp, ha, hl]
    refine ⟨?_, ?_, ?_⟩ <;>
      simp [calculate_metric, hcond, list_mean, herrlen hl, List.isEmpty_iff, hp, ha, hl]

/-- Witness for C8 at a concrete input: MAE of predictions `[1, 2]` against
readings `[0, 0]` is `3/2`. -/
theorem c8_calculate_metric_spec_witness :
    calculate_metric id "MAE" [(1 : ℚ), 2] [0, 0] = .ok (3 / 2) := by
  have h := (c8_calculate_metric_spec id "MAE" [(1 : ℚ), 2] [0, 0]).2
    (by decide) (by decide) (by decide)
  refine h.1.trans (congrArg Except.ok ?_)
  norm_num [metric_errors, List.zipWith, List.sum_cons, List.sum_nil]

/-- Key lookup misses for a name outside the stored keys. -/
theorem lookup_eq_none_of_not_mem_keys {β : Type} (l : List (String × β))
    (a : String) (h : a ∉ l.map Prod.fst) : l.lookup a = none := by
  rcases hl : l.lookup a with _ | v
  · rfl
  · exact absurd ((lookup_isSome_iff_mem_keys l a).mp (by simp [hl])) h

/-- Setting the same attribute twice keeps only the second value. -/
theorem ns_set_override {V : Type} (m : PyNamespace V) (n : String) (x y : V) :
    ns_set (ns_set m n x) n y = ns_set m n y := by
  funext q
  unfold ns_set
  by_cases hq : q = n <;> simp [hq]

/-- Re-setting an attribute to its current value changes nothing. -/
theorem ns_set_cancel {V : Type} (m : PyNamespace V) (n : String) (x : V)
    (h : m n = some x) : ns_set m n x = m := by
  funext q
  unfold ns_set
  by_cases hq : q = n <;> simp [hq, h.symm]

/-- Deleting an attribute erases an earlier set of the same name. -/
theorem ns_del_set_cancel {V : Type} (m : PyNamespace V) (n : String) (x : V) :
    ns_del (ns_set m n x) n = ns_del m n := by
  funext q
  unfold ns_del ns_set
  by_cases hq : q = n <;> simp [hq]

/-- Deleting an absent attribute changes nothing. -/
theorem ns_del_cancel {V : Type} (m : PyNamespace V) (n : String)
    (h : m n = none) : ns_del m n = m := by
  funext q
  unfold ns_del
  by_cases hq : q = n <;> simp [hq, h.symm]

/-- Sets of distinct attributes commute. -/
theorem ns_set_comm {V : Type} (m : PyNamespace V) (n name : String) (x y : V)
    (hne : name ≠ n) :
    ns_set (ns_set m n x) name y = ns_set (ns_set m name y) n x := by
  funext q
  unfold ns_set
  by_cases h1 : q = name
  · subst h1
    simp [hne]
  · by_cases h2 : q = n <;> simp [h1, h2, Ne.symm hne]

/-- A delete commutes with a set of a distinct attribute. -/
theorem ns_del_set_comm {V : Type} (m : PyNamespace V) (n name : String) (x : V)
    (hne : name ≠ n) :
    ns_del (ns_set m n x) name = ns_set (ns_del m name) n x := by
  funext q
  unfold ns_del ns_set
  by_cases h1 : q = name
  · subst h1
    simp [hne]
  · by_cases h2 : q = n <;> simp [h1, h2, Ne.symm hne]

/-- The backup dict only holds names that are public module symbols. -/
theorem zip_backup_keys_sub {V : Type} :
    ∀ (module_syms : List (String × V)) (main : PyNamespace V) (x : String),
      x ∈ (zip_backup_and_publish main module_syms).1.map Prod.fst →
      x ∈ module_syms.map Prod.fst
  | [], _, _, h => by simp [zip_backup_and_publish] at h
  | (n, v) :: rest, main, x, h => by
      simp only [zip_backup_and_publish, List.map_append, List.mem_append] at h
      rcases h with h | h
      · rcases hm : main n with _ | old
        · rw [hm] at h
          simp at h
        · rw [hm] at h
          simp at h
          simp [h]
      · exact List.mem_cons_of_mem _ (zip_backup_keys_sub rest (ns_set main n v) x h)

/-- Publishing the module symbols leaves every other attribute alone. -/
theorem zip_publish_preserve {V : Type} :
    ∀ (module_syms : List (String × V)) (main : PyNamespace V) (q : String),
      q ∉ module_syms.map Prod.fst →
      (zip_backup_and_publish main module_syms).2 q = main q
  | [], _, _, _ => rfl
  | (n, v) :: rest, main, q, h => by
      have hqn : q ≠ n := by
        intro hq
        exact h (by simp [hq])
      have hrest : q ∉ rest.map Prod.fst := fun hq => h (List.mem_cons_of_mem _ hq)
      have := zip_publish_preserve rest (ns_set main n v) q hrest
      simp only [zip_backup_and_publish]
      rw [this]
      unfold ns_set
      simp [hqn]

/-- The restore loop only consults the backup at the module symbol names. -/
theorem zip_restore_congr {V : Type} :
    ∀ (module_syms : List (String × V)) (b1 b2 : List (String × V))
      (m : PyNamespace V),
      (∀ x ∈ module_syms.map Prod.fst, b1.lookup x = b2.lookup x) →
      zip_restore_main b1 m module_syms = zip_restore_main b2 m module_syms
  | [], _, _, _, _ => rfl
  | (n, v) :: rest, b1, b2, m, h => by
      have hn : b1.lookup n = b2.lookup n := h n (by simp)
      have hrest : ∀ x ∈ rest.map Prod.fst, b1.lookup x = b2.lookup x :=
        fun x hx => h x (List.mem_cons_of_mem _ hx)
      rcases hl : b2.lookup n with _ | old
      · rw [hl] at hn
        simp only [zip_restore_main, hn, hl]
        by_cases hm : (m n).isSome <;> simp only [hm] <;>
          [skip; skip] <;> first
          | exact zip_restore_congr rest b1 b2 _ hrest
      · rw [hl] at hn
        simp only [zip_restore_main, hn, hl]
        exact zip_restore_congr rest b1 b2 _ hrest

/-- The restore loop commutes with a set of a name outside the module
symbols. -/
theorem zip_restore_set_comm {V : Type} :
    ∀ (module_syms : List (String × V)) (b : List (String × V))
      (m : PyNamespace V) (n : String) (x : V),
      n ∉ module_syms.map Prod.fst →
      zip_restore_main b (ns_set m n x) module_syms =
        ns_set (zip_restore_main b m module_syms) n x
  | [], _, _, _, _, _ => rfl
  | (name, v) :: rest, b, m, n, x, h => by
      have hne : name ≠ n := by
        intro hq
        exact h (by simp [hq])
      have hrest : n ∉ rest.map Prod.fst := fun hq => h (List.mem_cons_of_mem _ hq)
      rcases hl : b.lookup name with _ | old
      · have hcond : ((ns_set m n x) name).isSome = (m name).isSome := by
          unfold ns_set
          simp [hne]
        simp only [zip_restore_main, hl, hcond]
        by_cases hm : (m name).isSome
        · simp only [hm, if_true]
          rw [ns_del_set_comm m n name x hne]
          exact zip_restore_set_comm rest b _ n x hrest
        · simp only [hm, Bool.false_eq_true, if_false]
          exact zip_restore_set_comm rest b m n x hrest
      · simp only [zip_restore_main, hl]
        rw [ns_set_comm m n name x old hne]
        exact zip_restore_set_comm rest b _ n x hrest

/-- The restore loop commutes with a delete of a name outside the module
symbols. -/
theorem zip_restore_del_comm {V : Type} :
    ∀ (module_syms : List (String × V)) (b : List (String × V))
      (m : PyNamespace V) (n : String),
      n ∉ module_syms.map Prod.fst →
      zip_restore_main b (ns_del m n) module_syms =
        ns_del (zip_restore_main b m module_syms) n
  | [], _, _, _, _ => rfl
  | (name, v) :: rest, b, m, n, h => by
      have hne : name ≠ n := by
        intro hq
        exact h (by simp [hq])
      have hrest : n ∉ rest.map Prod.fst := fun hq => h (List.mem_cons_of_mem _ hq)
      rcases hl : b.lookup name with _ | old
      · have hcond : ((ns_del m n) name).isSome = (m name).isSome := by
          unfold ns_del
          simp [hne]
        simp only [zip_restore_main, hl, hcond]
        by_cases hm : (m name).isSome
        · simp only [hm, if_true]
          have hcomm : ns_del (ns_del m n) name = ns_del (ns_del m name) n := by
            funext q
            unfold ns_del
            by_cases h1 : q = name <;> by_cases h2 : q = n <;> simp [h1, h2]
          rw [hcomm]
          exact zip_restore_del_comm rest b _ n hrest
        · simp only [hm, Bool.false_eq_true, if_false]
          exact zip_restore_del_comm rest b m n hrest
      · simp only [zip_restore_main, hl]
        have hcomm : ns_set (ns_del m n) name old = ns_del (ns_set m name old) n := by
          rw [ns_del_set_comm m name n old (Ne.symm hne)]
        rw [hcomm]
        exact zip_restore_del_comm rest b _ n hrest

/-- The backup-publish-restore sequence of `ZipModel._load` returns
`__main__` to its initial state when the module symbol names are distinct
(which `dir(...)` guarantees). -/
theorem zip_restore_roundtrip {V : Type} :
    ∀ (module_syms : List (String × V)) (main : PyNamespace V),
      (module_syms.map Prod.fst).Nodup →
      zip_restore_main (zip_backup_and_publish main module_syms).1
        (zip_backup_and_publish main module_syms).2 module_syms = main
  | [], _, _ => rfl
  | (n, v) :: rest, main, hnd => by
      have hn : n ∉ rest.map Prod.fst := by
        simp only [List.map_cons, List.nodup_cons] at hnd
        exact hnd.1
      have hrest : (rest.map Prod.fst).Nodup := by
        simp only [List.map_cons, List.nodup_cons] at hnd
        exact hnd.2
      have hbs_n : (zip_backup_and_publish (ns_set main n v) rest).1.lookup n = none :=
        lookup_eq_none_of_not_mem_keys _ n
          (fun hmem => hn (zip_backup_keys_sub rest (ns_set main n v) n hmem))
      have hm2 : (zip_backup_and_publish (ns_set main n v) rest).2 n = some v := by
        rw [zip_publish_preserve rest (ns_set main n v) n hn]
        unfold ns_set
        simp
      rcases hm : main n with _ | old
      · simp only [zip_backup_and_publish, hm, List.nil_append]
        simp only [zip_restore_main, hbs_n, hm2]
        simp only [Option.isSome_some, if_true]
        rw [zip_restore_del_comm rest _ _ n hn,
          zip_restore_roundtrip rest (ns_set main n v) hrest,
          ns_del_set_cancel, ns_del_cancel main n hm]
      · simp only [zip_backup_and_publish, hm]
        have hlook : (((n, old) :: []) ++
            (zip_backup_and_publish (ns_set main n v) rest).1).lookup n = some old := by
          simp [List.lookup]
        simp only [zip_restore_main, List.cons_append, List.nil_append] at hlook ⊢
        rw [hlook]
        show zip_restore_main
            ((n, old) :: (zip_backup_and_publish (ns_set main n v) rest).1)
            (ns_set (zip_backup_and_publish (ns_set main n v) rest).2 n old)
            rest = main
        have hagree : ∀ x ∈ rest.map Prod.fst,
            ((n, old) :: (zip_backup_and_publish (ns_set main n v) rest).1).lookup x =
              (zip_backup_and_publish (ns_set main n v) rest).1.lookup x := by
          intro x hx
          have hxn : x ≠ n := fun hq => hn (hq ▸ hx)
          simp [List.lookup, beq_eq_false_iff_ne.mpr hxn]
        rw [zip_restore_congr rest _ _ _ hagree,
          zip_restore_set_comm rest _ _ n old hn,
          zip_restore_roundtrip rest (ns_set main n v) hrest,
          ns_set_override, ns_set_cancel main n old hm]

/-- Claim C9: loading a zip-packaged model leaves `__main__` unchanged —
every public companion symbol that shadowed a global is restored to its
prior value and every public symbol that was not previously a global is
removed — while the companion module itself is retained in the loaded model
for its lifetime. -/
theorem c9_zip_load_restores_main {V D : Type} (main : PyNamespace V)
    (module_syms : List (String × V)) (deser : PyNamespace V → D)
    (h : (module_syms.map Prod.fst).Nodup) :
    (zip_model_load main module_syms deser).loaded_module = module_syms ∧
    ∀ q, (zip_model_load main module_syms deser).main_after q = main q :=
  ⟨rfl, fun q => congrFun (zip_restore_roundtrip module_syms main h) q⟩

/-- Witness for C9 at a concrete load: after loading a module defining
`FancyEstimator` (new) and `helper` (shadowing), `__main__` is unchanged at
both names. -/
theorem c9_zip_load_restores_main_witness :
    (zip_model_load sample_main_ns sample_module_syms
      (fun ns => ns "FancyEstimator")).main_after "FancyEstimator" =
        sample_main_ns "FancyEstimator" ∧
    (zip_model_load sample_main_ns sample_module_syms
      (fun ns => ns "FancyEstimator")).main_after "helper" =
        sample_main_ns "helper" :=
  ⟨(c9_zip_load_restores_main sample_main_ns sample_module_syms
      (fun ns => ns "FancyEstimator") (by decide)).2 "FancyEstimator",
   (c9_zip_load_restores_main sample_main_ns sample_module_syms
      (fun ns => ns "FancyEstimator") (by decide)).2 "helper"⟩

/-- The point-building loop produces exactly one point per timestamp string
the parser accepts, whatever the starting index. -/
theorem build_points_length_from (parse_time : String → Option PyDatetime)
    (ch : String → Option (List ℚ)) :
    ∀ (times : List String) (n : Nat),
      ((times.enumFrom n).filterMap fun p =>
        (parse_time p.2).map fun t => build_weather_data_point ch t p.1).length =
      (times.filter fun s => (parse_time s).isSome).length
  | [], _ => rfl
  | s :: ss, n => by
      simp only [List.enumFrom, List.filterMap_cons, List.filter_cons]
      rcases hp : parse_time s with _ | t
      · simp [hp, build_points_length_from parse_time ch ss (n + 1)]
      · simp [hp, build_points_length_from parse_time ch ss (n + 1)]

/-- Claim C10: channel extraction is total — an absent channel array gives
`None`, an out-of-range index gives `None`, an in-range index gives the
element (the only case in which the source subscripts the array) — and the
building loop creates one point per parseable timestamp, each built point
being present in the result. -/
theorem c10_channel_extraction_total (parse_time : String → Option PyDatetime)
    (ch : String → Option (List ℚ)) (times : List String) :
    (∀ i, get_value_at_index none i = none) ∧
    (∀ (l : List ℚ) (i : Nat), l.length ≤ i → get_value_at_index (some l) i = none) ∧
    (∀ (l : List ℚ) (i : Nat) (h : i < l.length),
      get_value_at_index (some l) i = some (l.get ⟨i, h⟩)) ∧
    ((build_weather_points parse_time ch times).length =
      (times.filter fun s => (parse_time s).isSome).length) ∧
    (∀ p ∈ times.enum, ∀ t, parse_time p.2 = some t →
      build_weather_data_point ch t p.1 ∈ build_weather_points parse_time ch times) := by
  refine ⟨fun i => rfl, ?_, ?_, ?_, ?_⟩
  · intro l i h
    simp [get_value_at_index, h]
  · intro l i h
    simp [get_value_at_index, Nat.not_le.mpr h, List.get?_eq_get h]
  · show ((times.enumFrom 0).filterMap fun p =>
      (parse_time p.2).map fun t => build_weather_data_point ch t p.1).length = _
    exact build_points_length_from parse_time ch times 0
  · intro p hp t ht
    refine List.mem_filterMap.mpr ⟨p, hp, ?_⟩
    rw [ht]
    rfl

/-- Witness for C10 at concrete inputs: an in-range and an out-of-range read
of a three-element channel array, and the point count for the sample
response. -/
theorem c10_channel_extraction_total_witness :
    get_value_at_index (some [(20 : ℚ), 21, 22]) 1 = some 21 ∧
    get_value_at_index (some [(20 : ℚ), 21, 22]) 5 = none :=
  ⟨by
    have h := (c10_channel_extraction_total sample_parse_time
      sample_response.minutely_15 sample_response.minutely_15_time).2.2.1
      [(20 : ℚ), 21, 22] 1 (by decide)
    simpa using h,
   (c10_channel_extraction_total sample_parse_time sample_response.minutely_15
      sample_response.minutely_15_time).2.1 [(20 : ℚ), 21, 22] 5 (by decide)⟩
